import Mathlib

/-!
Shallow embedding of the core logic of the sentiment-analyzer frontend:
the client-side sentiment normalizer with its confidence floor, the
session/token store (`AuthService`), the auth request wrappers, and the
batch-result mapping, together with theorems checking the stated
properties of each.

JavaScript numbers used as confidence scores are modelled as rationals
(`ℚ`, with `mkRat` for decimal literals such as `0.7 = mkRat 7 10`);
optional / possibly-missing values are modelled with `Option`; thrown
`Error` messages are modelled as the `error` side of `Except` carrying
the exact message string the code throws.
-/

/-- The three canonical sentiment categories
(`"Positive" | "Negative" | "Neutral"` in `SentimentResult`). -/
inductive Sentiment where
  | Positive : Sentiment
  | Negative : Sentiment
  | Neutral : Sentiment
deriving DecidableEq, Repr

/-- JavaScript's `String.prototype.toLowerCase()` on the ASCII range:
lower-case every character. -/
def jsToLower (s : String) : String := ⟨s.data.map Char.toLower⟩

/-- The guard `confidence !== undefined && confidence < 0.7` from
`normalizeSentiment`; `none` models `undefined`. -/
def lowConfidence : Option ℚ → Bool
  | some c => decide (c < mkRat 7 10)
  | none => false

/-- `normalizeSentiment` as defined in the batch-uploads page
(src/lib/sentiment-api.ts, lines 192–203):
```js
const normalizeSentiment = (sentiment, confidence) => {
  const normalized = sentiment?.toLowerCase();
  if (confidence !== undefined && confidence < 0.7) return "Neutral";
  if (normalized === "positive" || normalized === "pos") return "Positive";
  if (normalized === "negative" || normalized === "neg") return "Negative";
  return "Neutral";
};
```
-/
def normalizeSentimentBatch (sentiment : String) (confidence : Option ℚ) : Sentiment :=
  let normalized := jsToLower sentiment
  if lowConfidence confidence then Sentiment.Neutral
  else if normalized = "positive" ∨ normalized = "pos" then Sentiment.Positive
  else if normalized = "negative" ∨ normalized = "neg" then Sentiment.Negative
  else Sentiment.Neutral

/-- `normalizeSentiment` as defined in the single-analysis page
(src/unnamed/part_005, lines 51–62); the source text of the function is
the same as the batch-page copy, but it is a distinct definition at a
distinct call site, so it is embedded separately for comparison. -/
def normalizeSentimentSingle (sentiment : String) (confidence : Option ℚ) : Sentiment :=
  let normalized := jsToLower sentiment
  if lowConfidence confidence then Sentiment.Neutral
  else if normalized = "positive" ∨ normalized = "pos" then Sentiment.Positive
  else if normalized = "negative" ∨ normalized = "neg" then Sentiment.Negative
  else Sentiment.Neutral

/-- Case-insensitive string comparison, as the source performs via
`sentiment?.toLowerCase() === "positive"` etc. -/
def caseInsensitiveEq (a b : String) : Prop := jsToLower a = jsToLower b

instance (a b : String) : Decidable (caseInsensitiveEq a b) := by
  unfold caseInsensitiveEq; infer_instance

lemma lowConfidence_eq_false {conf : Option ℚ}
    (h : ∀ c : ℚ, conf = some c → mkRat 7 10 ≤ c) : lowConfidence conf = false := by
  cases conf with
  | none => rfl
  | some c => simpa [lowConfidence] using not_lt.mpr (h c rfl)

/-- C1: the normalizer returns Neutral whenever the provided confidence is
below 0.7; with confidence at least 0.7 or absent, it maps labels
case-insensitively equal to "positive"/"pos" to Positive, to
"negative"/"neg" to Negative, and everything else to Neutral. -/
theorem normalizeSentiment_confidence_gate (label : String) (conf : Option ℚ) :
    (∀ c : ℚ, conf = some c → c < mkRat 7 10 →
        normalizeSentimentBatch label conf = Sentiment.Neutral) ∧
    ((∀ c : ℚ, conf = some c → mkRat 7 10 ≤ c) →
      ((caseInsensitiveEq label "positive" ∨ caseInsensitiveEq label "pos") →
          normalizeSentimentBatch label conf = Sentiment.Positive) ∧
      ((caseInsensitiveEq label "negative" ∨ caseInsensitiveEq label "neg") →
          normalizeSentimentBatch label conf = Sentiment.Negative) ∧
      (¬ caseInsensitiveEq label "positive" → ¬ caseInsensitiveEq label "pos" →
       ¬ caseInsensitiveEq label "negative" → ¬ caseInsensitiveEq label "neg" →
          normalizeSentimentBatch label conf = Sentiment.Neutral)) := by
  constructor
  · rintro c rfl hc
    simp [normalizeSentimentBatch, lowConfidence, hc]
  · intro hhigh
    have hfloor := lowConfidence_eq_false hhigh
    have hpos : jsToLower "positive" = "positive" := rfl
    have hpos' : jsToLower "pos" = "pos" := rfl
    have hneg : jsToLower "negative" = "negative" := rfl
    have hneg' : jsToLower "neg" = "neg" := rfl
    unfold caseInsensitiveEq
    rw [hpos, hpos', hneg, hneg']
    refine ⟨?_, ?_, ?_⟩
    · intro h
      simp [normalizeSentimentBatch, hfloor, h]
    · rintro (h | h) <;>
        simp [normalizeSentimentBatch, hfloor, h]
    · intro h1 h2 h3 h4
      simp [normalizeSentimentBatch, hfloor, h1, h2, h3, h4]

/-- Witness for C1 at concrete inputs: "POS" at confidence 0.9 maps to
Positive, and "POSITIVE" at confidence 0.5 maps to Neutral. -/
theorem normalizeSentiment_confidence_gate_witness :
    normalizeSentimentBatch "POS" (some (mkRat 9 10)) = Sentiment.Positive ∧
    normalizeSentimentBatch "POSITIVE" (some (mkRat 1 2)) = Sentiment.Neutral := by
  constructor
  · exact ((normalizeSentiment_confidence_gate "POS" (some (mkRat 9 10))).2
      (fun c hc => (Option.some_inj.mp hc) ▸ (by decide : mkRat 7 10 ≤ mkRat 9 10))).1
      (Or.inr (by decide))
  · exact (normalizeSentiment_confidence_gate "POSITIVE" (some (mkRat 1 2))).1
      (mkRat 1 2) rfl (by decide)

/-- C2: the normalizer used by the single-analysis flow and the one used
by the batch-upload flow agree on every (label, confidence) input, so
confidence-based demotion to Neutral is never skipped in either flow. -/
theorem normalizeSentiment_single_eq_batch (label : String) (conf : Option ℚ) :
    normalizeSentimentSingle label conf = normalizeSentimentBatch label conf := rfl

/-!
## Session manager (`AuthService`, src/unnamed/part_002)

The durable token store (the one `localStorage` slot keyed by
`sentiment_analyzer_token`) is modelled as `Option String`: `none` when
no token is persisted, `some t` when `t` is stored. The model assumes a
browser context (`typeof window !== "undefined"`); otherwise every store
operation is a no-op and `getToken` returns `null`, which the claims do
not touch. Stateful operations take the store explicitly and return the
updated store.
-/

/-- The durable token store: the single `localStorage` slot. -/
abbrev TokenStore := Option String

/-- `AuthService.getToken` (src/unnamed/part_002, lines 19–24):
`localStorage.getItem(TOKEN_KEY)`, no side effect. -/
def getToken (store : TokenStore) : Option String := store

/-- `AuthService.setToken` (src/unnamed/part_002, lines 26–34): rejects a
falsy token (`!token`: absent/`null`/empty string) as a logged no-op,
otherwise writes the token to the store. `none` models an absent
(`undefined`/`null`) argument. -/
def setToken (token : Option String) (store : TokenStore) : TokenStore :=
  match token with
  | none => store
  | some t => if t = "" then store else some t

/-- `AuthService.removeToken` (src/unnamed/part_002, lines 36–40):
`localStorage.removeItem(TOKEN_KEY)`, unconditionally. -/
def removeToken (_store : TokenStore) : TokenStore := none

/-- C3: storing a non-empty token and reading it back returns that token;
storing an empty or absent token leaves the store unchanged. -/
theorem setToken_getToken_roundtrip (t : String) (store : TokenStore) (h : t ≠ "") :
    getToken (setToken (some t) store) = some t ∧
    setToken (some "") store = store ∧
    setToken none store = store := by
  refine ⟨?_, rfl, rfl⟩
  simp [getToken, setToken, h]

/-- Witness for C3: round-trip of "abc" through an empty store, and the
no-op cases on a store already holding "abc". -/
theorem setToken_getToken_roundtrip_witness :
    getToken (setToken (some "abc") (none : TokenStore)) = some "abc" ∧
    setToken (some "") (some "abc" : TokenStore) = some "abc" ∧
    setToken none (some "abc" : TokenStore) = some "abc" := by
  refine ⟨(setToken_getToken_roundtrip "abc" none (by decide)).1,
    (setToken_getToken_roundtrip "abc" (some "abc") (by decide)).2.1,
    (setToken_getToken_roundtrip "abc" (some "abc") (by decide)).2.2⟩

/-- User identity as in the `User` interface (src/unnamed/part_002,
lines 4–9). -/
structure User where
  id : String
  name : String
  email : String
  memberSince : Option String
deriving DecidableEq, Repr

/-- `response.ok` of the Fetch API: status in the range 200–299. -/
def responseOk (status : Nat) : Bool := 200 ≤ status && status ≤ 299

/-- The errors `AuthService.getUserProfile` can throw, one constructor
per distinct `throw new Error(...)` site (src/unnamed/part_002,
lines 140–159). -/
inductive ProfileError where
  | noToken : ProfileError
  | sessionExpired : ProfileError
  | profileFetchFailed : ProfileError
deriving DecidableEq, Repr

/-- The message string each `ProfileError` carries in the source. -/
def ProfileError.message : ProfileError → String
  | .noToken => "No token found"
  | .sessionExpired => "Session expired"
  | .profileFetchFailed => "Failed to fetch profile"

/-- An HTTP response to the profile fetch: a status code plus the body
the success path would parse as a `User`. -/
structure ProfileResponse where
  status : Nat
  body : User
deriving DecidableEq

/-- `AuthService.getUserProfile` (src/unnamed/part_002, lines 140–159):
requires a stored token; on a non-ok response, a 401 removes the token
and throws "Session expired", any other failure status throws
"Failed to fetch profile"; an ok response returns the parsed body.
The fetch itself is modelled by the response it produced. -/
def getUserProfile (store : TokenStore) (resp : ProfileResponse) :
    TokenStore × Except ProfileError User :=
  match getToken store with
  | none => (store, .error .noToken)
  | some _ =>
    if !responseOk resp.status then
      if resp.status == 401 then (removeToken store, .error .sessionExpired)
      else (store, .error .profileFetchFailed)
    else (store, .ok resp.body)

/-- C4: with a token present, a 401 profile response yields the
distinguishable session-expired error and clears the stored token; any
other non-success status yields the generic profile-fetch error and
leaves the token in place. -/
theorem getUserProfile_session_expiry (store : TokenStore) (t : String)
    (resp : ProfileResponse) (hstore : store = some t) :
    (resp.status = 401 →
        (getUserProfile store resp).2 = .error .sessionExpired ∧
        getToken (getUserProfile store resp).1 = none) ∧
    (responseOk resp.status = false → resp.status ≠ 401 →
        (getUserProfile store resp).2 = .error .profileFetchFailed ∧
        (getUserProfile store resp).1 = store) ∧
    ProfileError.sessionExpired ≠ ProfileError.profileFetchFailed := by
  subst hstore
  refine ⟨?_, ?_, by decide⟩
  · intro h401
    obtain ⟨st, body⟩ := resp
    simp only at h401
    subst h401
    simp [getUserProfile, getToken, removeToken, responseOk]
  · intro hok h401
    simp [getUserProfile, getToken, hok, h401]

/-- Witness for C4: a store holding "tok" hit with a 401 response loses
its token and reports session expiry; a 500 response keeps the token and
reports the generic fetch failure. -/
theorem getUserProfile_session_expiry_witness :
    ((getUserProfile (some "tok") ⟨401, ⟨"u1", "Ann", "a@b.c", none⟩⟩).2 =
        .error .sessionExpired ∧
      getToken (getUserProfile (some "tok") ⟨401, ⟨"u1", "Ann", "a@b.c", none⟩⟩).1 = none) ∧
    ((getUserProfile (some "tok") ⟨500, ⟨"u1", "Ann", "a@b.c", none⟩⟩).2 =
        .error .profileFetchFailed ∧
      (getUserProfile (some "tok") ⟨500, ⟨"u1", "Ann", "a@b.c", none⟩⟩).1 = some "tok") := by
  refine ⟨(getUserProfile_session_expiry (some "tok") "tok" _ rfl).1 rfl,
    (getUserProfile_session_expiry (some "tok") "tok" _ rfl).2.1 (by decide) (by decide)⟩

/-!
## `AuthService.login` and its caller `AuthProvider.login`
-/

/-- A JSON field value as far as the login token check inspects it:
absent (or otherwise falsy and non-string), present but not a string, or
a string. -/
inductive JField where
  | absent : JField
  | nonString : JField
  | str : String → JField
deriving DecidableEq, Repr

/-- The response to the login POST: status code, the `message` field the
error path reads from the body (when present), and the `access_token`
and `user` fields the success path reads. -/
structure LoginResponse where
  status : Nat
  errorMessage : Option String
  access_token : JField
  user : User
deriving DecidableEq

/-- The session object `AuthService.login` assembles
(`AuthResponse` in src/unnamed/part_002, lines 11–14). -/
structure AuthResponse where
  token : String
  user : User
deriving DecidableEq, Repr

lemma string_length_eq_zero_iff (s : String) : s.length = 0 ↔ s = "" := by
  obtain ⟨data⟩ := s
  constructor
  · intro h
    have hd : data = [] := by simpa [String.length] using h
    subst hd
    rfl
  · intro h
    have hd : data = [] := by
      have := congrArg String.data h
      simpa using this
    simp [String.length, hd]

/-- `AuthService.login` (src/unnamed/part_002, lines 42–83), with the
token store threaded through explicitly: the source body performs no
token-store operation (no `setToken`/`removeToken`/`localStorage`), so
the store passes through unchanged. A non-ok status throws the body's
message (or "Login failed"); an ok response whose `access_token` is not
a non-empty string (`!result.access_token ||
typeof result.access_token !== 'string' || result.access_token.length === 0`)
throws the malformed-response error; otherwise the server's
`access_token` is mapped onto the session's `token` field. -/
def loginS (resp : LoginResponse) (store : TokenStore) :
    TokenStore × Except String AuthResponse :=
  (store,
    if !responseOk resp.status then
      .error (resp.errorMessage.getD "Login failed")
    else
      match resp.access_token with
      | .str s =>
        if s.length = 0 then
          .error "Login failed: No authentication token received"
        else
          .ok ⟨s, resp.user⟩
      | _ => .error "Login failed: No authentication token received")

/-- `AuthProvider.login` (src/hooks/use-auth.tsx, lines 42–59): calls
`AuthService.login` and, on success, persists the returned token with
`AuthService.setToken`; on failure the error is re-thrown and the store
is untouched. -/
def providerLogin (resp : LoginResponse) (store : TokenStore) :
    TokenStore × Except String User :=
  match loginS resp store with
  | (store1, .ok auth) => (setToken (some auth.token) store1, .ok auth.user)
  | (store1, .error e) => (store1, .error e)

/-- C5: on a success (2xx) response, login fails with the
malformed-response error exactly when the `access_token` field is not a
non-empty string, and otherwise returns the session with the server's
`access_token` as its token and the response's `user` as its identity;
login itself never changes the token store, and its caller
`AuthProvider.login` is the one that persists the token. -/
theorem login_malformed_and_no_persist (resp : LoginResponse) (store : TokenStore) :
    (responseOk resp.status = true →
      ((∀ s : String, resp.access_token = .str s → s = "") →
          (loginS resp store).2 =
            .error "Login failed: No authentication token received") ∧
      (∀ s : String, resp.access_token = .str s → s ≠ "" →
          (loginS resp store).2 = .ok ⟨s, resp.user⟩)) ∧
    (loginS resp store).1 = store ∧
    (∀ s : String, responseOk resp.status = true → resp.access_token = .str s →
        s ≠ "" → getToken (providerLogin resp store).1 = some s) := by
  refine ⟨?_, rfl, ?_⟩
  · intro hok
    constructor
    · intro hlacks
      cases htok : resp.access_token with
      | absent => simp [loginS, hok, htok]
      | nonString => simp [loginS, hok, htok]
      | str s =>
        have hs : s = "" := hlacks s htok
        subst hs
        simp [loginS, hok, htok]
    · intro s htok hne
      have hlen : s.length ≠ 0 := by
        simpa [string_length_eq_zero_iff] using hne
      simp [loginS, hok, htok, hlen]
  · intro s hok htok hne
    have hlen : s.length ≠ 0 := by
      simpa [string_length_eq_zero_iff] using hne
    simp [providerLogin, loginS, hok, htok, hlen, setToken, getToken, hne]

/-- Witness for C5: a 200 response carrying access_token "jwt-1" yields
the session ⟨"jwt-1", user⟩ with the store untouched by `loginS`, an
empty access_token yields the malformed-response error, and the provider
persists "jwt-1" into an empty store. -/
theorem login_malformed_and_no_persist_witness :
    (loginS ⟨200, none, .str "jwt-1", ⟨"u1", "Ann", "a@b.c", none⟩⟩ none).2 =
        .ok ⟨"jwt-1", ⟨"u1", "Ann", "a@b.c", none⟩⟩ ∧
    (loginS ⟨200, none, .str "", ⟨"u1", "Ann", "a@b.c", none⟩⟩ none).2 =
        .error "Login failed: No authentication token received" ∧
    (loginS ⟨200, none, .str "jwt-1", ⟨"u1", "Ann", "a@b.c", none⟩⟩ none).1 = none ∧
    getToken (providerLogin ⟨200, none, .str "jwt-1", ⟨"u1", "Ann", "a@b.c", none⟩⟩ none).1 =
        some "jwt-1" := by
  refine ⟨((login_malformed_and_no_persist ⟨200, none, .str "jwt-1", ⟨"u1", "Ann", "a@b.c", none⟩⟩
      none).1 (by decide)).2 "jwt-1" rfl (by decide),
    ((login_malformed_and_no_persist ⟨200, none, .str "", ⟨"u1", "Ann", "a@b.c", none⟩⟩
      none).1 (by decide)).1 (fun s hs => by injection hs with h; exact h.symm),
    (login_malformed_and_no_persist ⟨200, none, .str "jwt-1", ⟨"u1", "Ann", "a@b.c", none⟩⟩
      none).2.1,
    (login_malformed_and_no_persist ⟨200, none, .str "jwt-1", ⟨"u1", "Ann", "a@b.c", none⟩⟩
      none).2.2 "jwt-1" (by decide) rfl (by decide)⟩

/-!
## `AuthService.signup`
-/

/-- The outcome of the signup fetch: the request either never reached the
server (the `fetch` rejection caught as a `TypeError`, mapped to the
network-error message), or produced an HTTP response with a status code
and, for error bodies, the `message` the parse stage yields (`none` when
the body provides no usable message). -/
inductive SignupFetch where
  | networkFailure : SignupFetch
  | httpResponse (status : Nat) (message : Option String) : SignupFetch
deriving DecidableEq

/-- `AuthService.signup` (src/unnamed/part_002, lines 85–138): on a
non-ok response, status 409 throws the conflict message, status 400
throws the body's message (or the validation default), status 500 throws
the generic server-error message, and any other status throws the body's
message (or "Signup failed"); a network failure throws the
transport-error message. -/
def signup : SignupFetch → Except String Unit
  | .networkFailure => .error "Network error: Unable to connect to the server"
  | .httpResponse status message =>
    if !responseOk status then
      if status == 409 then
        .error "An account with this email address already exists. Please try logging in instead."
      else if status == 400 then
        .error (message.getD "Invalid signup data. Please check your information.")
      else if status == 500 then
        .error "Server error. Please try again later."
      else
        .error (message.getD "Signup failed")
    else .ok ()

/-- C6 counterexample: the claim says every status ≥ 500 yields the
generic server-error message, but a 502 response whose body carries a
message surfaces that message instead — only status exactly 500 is given
the generic server-error message. -/
theorem signup_server_error_counterexample :
    500 ≤ 502 ∧
    signup (.httpResponse 502 (some "Bad gateway")) = .error "Bad gateway" ∧
    signup (.httpResponse 502 (some "Bad gateway")) ≠
      .error "Server error. Please try again later." := by
  exact ⟨by decide, rfl, fun h => by simp [signup, responseOk] at h⟩

/-- C6 amended: signup's error categories are: the conflict message for
status 409; the server-supplied message (or the validation default) for
status 400; the generic server-error message for status exactly 500; for
every other non-success status — including 502 and above — the
server-supplied message when present, otherwise "Signup failed"; and for
a network failure the fixed transport-error message, which differs from
every fixed HTTP-error message. -/
theorem signup_error_categories (status : Nat) (message : Option String) :
    (signup .networkFailure =
        .error "Network error: Unable to connect to the server") ∧
    (status = 409 → signup (.httpResponse status message) =
        .error "An account with this email address already exists. Please try logging in instead.") ∧
    (status = 400 → signup (.httpResponse status message) =
        .error (message.getD "Invalid signup data. Please check your information.")) ∧
    (status = 500 → signup (.httpResponse status message) =
        .error "Server error. Please try again later.") ∧
    (responseOk status = false → status ≠ 409 → status ≠ 400 → status ≠ 500 →
        signup (.httpResponse status message) =
          .error (message.getD "Signup failed")) ∧
    ("Network error: Unable to connect to the server" ≠
        "An account with this email address already exists. Please try logging in instead." ∧
      "Network error: Unable to connect to the server" ≠
        "Invalid signup data. Please check your information." ∧
      "Network error: Unable to connect to the server" ≠
        "Server error. Please try again later." ∧
      "Network error: Unable to connect to the server" ≠ "Signup failed") := by
  refine ⟨rfl, ?_, ?_, ?_, ?_, by decide⟩
  · rintro rfl
    rfl
  · rintro rfl
    rfl
  · rintro rfl
    rfl
  · intro hok h409 h400 h500
    simp [signup, hok, h409, h400, h500]

/-- Witness for C6 amended: concrete responses for each category. -/
theorem signup_error_categories_witness :
    signup (.httpResponse 409 none) =
      .error "An account with this email address already exists. Please try logging in instead." ∧
    signup (.httpResponse 400 (some "email is invalid")) =
      .error "email is invalid" ∧
    signup (.httpResponse 500 (some "boom")) =
      .error "Server error. Please try again later." ∧
    signup (.httpResponse 503 none) = .error "Signup failed" := by
  refine ⟨(signup_error_categories 409 none).2.1 rfl,
    (signup_error_categories 400 (some "email is invalid")).2.2.1 rfl,
    (signup_error_categories 500 (some "boom")).2.2.2.1 rfl,
    (signup_error_categories 503 none).2.2.2.2.1 (by decide) (by decide) (by decide)
      (by decide)⟩

/-!
## Batch flow: `handleAnalyze` (batch-uploads page) and
`SentimentAnalyzer.handleFileUpload` (src/unnamed/part_001)
-/

/-- One raw row of the batch response's `reviews` array, with the fields
the mapping code reads (`BatchResult` in src/lib/sentiment-api.ts,
lines 60–68). -/
structure RawReview where
  sentiment : String
  confidence : Option ℚ
  original_text : Option String
  text : Option String
  review : Option String
deriving DecidableEq

/-- The `reviews` field of a batch response body, as far as the
validation `!reviews || !Array.isArray(reviews)` inspects it: absent (or
otherwise falsy), present but not an array, or an array of rows. -/
inductive ReviewsField where
  | absent : ReviewsField
  | notArray : ReviewsField
  | arr : List RawReview → ReviewsField
deriving DecidableEq

/-- A batch response body: the `reviews` field and the
`summary?.total_reviews` count (`none` when the summary or the count is
absent). -/
structure BatchBody where
  reviews : ReviewsField
  summaryTotal : Option Nat
deriving DecidableEq

/-- JavaScript `a || b` for string-valued fields: an absent value or the
empty string falls through to the default. -/
def jsOrStr (o : Option String) (d : String) : String :=
  match o with
  | some s => if s = "" then d else s
  | none => d

/-- A displayed result row (`SentimentResult` in
src/lib/sentiment-api.ts, lines 36–40, after normalization). -/
structure SentimentResult where
  sentiment : Sentiment
  confidence : ℚ
  review : String
deriving DecidableEq

/-- The aggregate a batch upload produces: the mapped rows plus the
total-processed count (the `{ results, totalProcessed }` state both
batch views hold). -/
structure BatchRun where
  results : List SentimentResult
  totalProcessed : Nat
deriving DecidableEq

/-- The row mapping of the batch-uploads page (src/lib/sentiment-api.ts,
lines 246–250):
```js
{
  sentiment: normalizeSentiment(result.sentiment, result.confidence),
  confidence: result.confidence || 0.5,
  review: result.original_text || result.text || result.review || "",
}
```
`result.confidence || 0.5` yields 0.5 when the raw confidence is absent
or 0 (falsy). -/
def mapBatchRow (r : RawReview) : SentimentResult where
  sentiment := normalizeSentimentBatch r.sentiment r.confidence
  confidence :=
    match r.confidence with
    | some c => if c = 0 then mkRat 1 2 else c
    | none => mkRat 1 2
  review := jsOrStr r.original_text (jsOrStr r.text (jsOrStr r.review ""))

/-- The response processing of the batch-uploads page's `handleAnalyze`
(src/lib/sentiment-api.ts, lines 231–252): a null/undefined response
fails, a response whose `reviews` field is not an array fails with the
contract-violation error, and otherwise every row is mapped through
`mapBatchRow` with `totalProcessed` set to `reviews.length`. -/
def handleAnalyze (resp : Option BatchBody) : Except String BatchRun :=
  match resp with
  | none => .error "No response from batch analysis API"
  | some body =>
    match body.reviews with
    | .arr rows =>
      .ok { results := rows.map mapBatchRow, totalProcessed := rows.length }
    | _ => .error "Invalid response structure from batch analysis API"

/-- The row mapping of `SentimentAnalyzer.handleFileUpload`
(src/unnamed/part_001, lines 210–228): sentiment is matched exactly
against "POSITIVE"/"NEGATIVE", the text falls back to "Review N", and
`review.confidence || 0` keeps the confidence (an absent confidence
becomes 0, and a 0 confidence stays 0). -/
def parseFileUploadRow (r : RawReview) (index : Nat) : SentimentResult where
  sentiment :=
    if r.sentiment = "POSITIVE" then Sentiment.Positive
    else if r.sentiment = "NEGATIVE" then Sentiment.Negative
    else Sentiment.Neutral
  confidence :=
    match r.confidence with
    | some c => c
    | none => 0
  review := jsOrStr r.original_text ("Review " ++ toString (index + 1))

/-- The response processing of `SentimentAnalyzer.handleFileUpload`
(src/unnamed/part_001, lines 196–236): validates the `reviews` array,
maps each row with its index, and sets `totalProcessed` to
`response.data.summary?.total_reviews || parsedResults.length` — the
server's summary count when present and nonzero, else the parsed row
count. -/
def handleFileUpload (body : BatchBody) : Except String BatchRun :=
  match body.reviews with
  | .arr rows =>
    let parsedResults := rows.enum.map (fun p => parseFileUploadRow p.2 p.1)
    .ok { results := parsedResults,
          totalProcessed :=
            match body.summaryTotal with
            | some n => if n = 0 then parsedResults.length else n
            | none => parsedResults.length }
  | _ => .error "Invalid API response: reviews array not found"

/-- C7: a batch response whose `reviews` field is not an array fails with
the contract-violation error; no `BatchRun` is produced. -/
theorem batch_malformed_response (body : BatchBody)
    (h : ∀ rows : List RawReview, body.reviews ≠ .arr rows) :
    handleAnalyze (some body) =
      .error "Invalid response structure from batch analysis API" ∧
    ∀ run : BatchRun, handleAnalyze (some body) ≠ .ok run := by
  have hmain : handleAnalyze (some body) =
      .error "Invalid response structure from batch analysis API" := by
    cases hrev : body.reviews with
    | absent => simp [handleAnalyze, hrev]
    | notArray => simp [handleAnalyze, hrev]
    | arr rows => exact absurd hrev (h rows)
  exact ⟨hmain, fun run hok => by rw [hmain] at hok; exact Except.noConfusion hok⟩

/-- Witness for C7: a body whose `reviews` field is absent fails with the
contract-violation error and in particular is not the empty success. -/
theorem batch_malformed_response_witness :
    handleAnalyze (some ⟨ReviewsField.absent, none⟩) =
      .error "Invalid response structure from batch analysis API" ∧
    handleAnalyze (some ⟨ReviewsField.absent, none⟩) ≠
      .ok ⟨[], 0⟩ := by
  refine ⟨(batch_malformed_response ⟨ReviewsField.absent, none⟩
      (fun rows h => ReviewsField.noConfusion h)).1,
    (batch_malformed_response ⟨ReviewsField.absent, none⟩
      (fun rows h => ReviewsField.noConfusion h)).2 ⟨[], 0⟩⟩

/-- C8 counterexample: a successful batch response carrying a
server-supplied summary count of 5 but only 2 rows is assembled by the
batch-uploads page's `handleAnalyze` with a total-processed count of 2 —
`reviews.length` — not the summary count the claim requires. -/
theorem batch_totalProcessed_counterexample :
    (handleAnalyze (some
        ⟨ReviewsField.arr
          [⟨"POSITIVE", some 1, some "good", none, none⟩,
           ⟨"NEGATIVE", some 1, some "bad", none, none⟩],
          some 5⟩)).map BatchRun.totalProcessed = .ok 2 ∧
    (2 : Nat) ≠ 5 := by
  exact ⟨rfl, by decide⟩

/-- C8 amended: on a successful batch response, the batch-uploads page's
`handleAnalyze` always sets the total-processed count to the number of
returned rows, ignoring any server-supplied summary count; only the
`SentimentAnalyzer.handleFileUpload` flow uses the summary count, and it
does so when the count is present and nonzero, falling back to the row
count otherwise. -/
theorem batch_totalProcessed_characterization (body : BatchBody)
    (rows : List RawReview) (h : body.reviews = .arr rows) :
    (handleAnalyze (some body)).map BatchRun.totalProcessed = .ok rows.length ∧
    (handleFileUpload body).map BatchRun.totalProcessed =
      .ok (match body.summaryTotal with
           | some n => if n = 0 then rows.length else n
           | none => rows.length) := by
  obtain ⟨rev, st⟩ := body
  simp only at h
  subst h
  constructor
  · simp [handleAnalyze, Except.map]
  · cases st with
    | none => simp [handleFileUpload, Except.map]
    | some n => cases n <;> simp [handleFileUpload, Except.map]

/-- Witness for C8 amended: with one returned row and a summary count of
7, `handleAnalyze` reports 1 processed and `handleFileUpload` reports 7. -/
theorem batch_totalProcessed_characterization_witness :
    (handleAnalyze (some
        ⟨ReviewsField.arr [⟨"POSITIVE", some 1, some "good", none, none⟩],
          some 7⟩)).map BatchRun.totalProcessed = .ok 1 ∧
    (handleFileUpload
        ⟨ReviewsField.arr [⟨"POSITIVE", some 1, some "good", none, none⟩],
          some 7⟩).map BatchRun.totalProcessed = .ok 7 := by
  exact ⟨(batch_totalProcessed_characterization
      ⟨ReviewsField.arr [⟨"POSITIVE", some 1, some "good", none, none⟩], some 7⟩
      [⟨"POSITIVE", some 1, some "good", none, none⟩] rfl).1,
    (batch_totalProcessed_characterization
      ⟨ReviewsField.arr [⟨"POSITIVE", some 1, some "good", none, none⟩], some 7⟩
      [⟨"POSITIVE", some 1, some "good", none, none⟩] rfl).2⟩

/-- C10: in the batch-uploads page's row mapping, a row whose raw
confidence is absent or 0 is reported with confidence 0.5, while its
category is still computed from the original raw confidence: a raw
confidence of 0 falls below the 0.7 floor and is categorized Neutral,
and an absent confidence skips the floor, letting the label mapping
decide. -/
theorem batch_row_confidence_default (r : RawReview) :
    (r.confidence = none ∨ r.confidence = some 0 →
        (mapBatchRow r).confidence = mkRat 1 2) ∧
    (mapBatchRow r).sentiment = normalizeSentimentBatch r.sentiment r.confidence ∧
    (r.confidence = some 0 → (mapBatchRow r).sentiment = Sentiment.Neutral) ∧
    (r.confidence = none →
        ((caseInsensitiveEq r.sentiment "positive" ∨
            caseInsensitiveEq r.sentiment "pos") →
          (mapBatchRow r).sentiment = Sentiment.Positive)) := by
  refine ⟨?_, rfl, ?_, ?_⟩
  · rintro (h | h) <;> simp [mapBatchRow, h]
  · intro h
    have hlow : lowConfidence (some 0) = true := by decide
    simp [mapBatchRow, normalizeSentimentBatch, h, hlow]
  · intro h hlabel
    have hlab : jsToLower r.sentiment = "positive" ∨ jsToLower r.sentiment = "pos" := by
      simpa [caseInsensitiveEq] using hlabel
    simp [mapBatchRow, normalizeSentimentBatch, h, lowConfidence, hlab]

/-- Witness for C10: a "POSITIVE" row with confidence 0 is reported
Neutral at confidence 0.5; a "POSITIVE" row with absent confidence is
reported Positive, also at confidence 0.5. -/
theorem batch_row_confidence_default_witness :
    mapBatchRow ⟨"POSITIVE", some 0, some "t", none, none⟩ =
      ⟨Sentiment.Neutral, mkRat 1 2, "t"⟩ ∧
    mapBatchRow ⟨"POSITIVE", none, some "t", none, none⟩ =
      ⟨Sentiment.Positive, mkRat 1 2, "t"⟩ := by
  constructor
  · have h1 := (batch_row_confidence_default
      ⟨"POSITIVE", some 0, some "t", none, none⟩).1 (Or.inr rfl)
    have h2 := (batch_row_confidence_default
      ⟨"POSITIVE", some 0, some "t", none, none⟩).2.2.1 rfl
    have h3 : (mapBatchRow ⟨"POSITIVE", some 0, some "t", none, none⟩).review = "t" := rfl
    calc mapBatchRow ⟨"POSITIVE", some 0, some "t", none, none⟩
        = ⟨(mapBatchRow ⟨"POSITIVE", some 0, some "t", none, none⟩).sentiment,
           (mapBatchRow ⟨"POSITIVE", some 0, some "t", none, none⟩).confidence,
           (mapBatchRow ⟨"POSITIVE", some 0, some "t", none, none⟩).review⟩ := rfl
      _ = ⟨Sentiment.Neutral, mkRat 1 2, "t"⟩ := by rw [h1, h2, h3]
  · have h1 := (batch_row_confidence_default
      ⟨"POSITIVE", none, some "t", none, none⟩).1 (Or.inl rfl)
    have h2 := (batch_row_confidence_default
      ⟨"POSITIVE", none, some "t", none, none⟩).2.2.2 rfl (Or.inl (by decide))
    have h3 : (mapBatchRow ⟨"POSITIVE", none, some "t", none, none⟩).review = "t" := rfl
    calc mapBatchRow ⟨"POSITIVE", none, some "t", none, none⟩
        = ⟨(mapBatchRow ⟨"POSITIVE", none, some "t", none, none⟩).sentiment,
           (mapBatchRow ⟨"POSITIVE", none, some "t", none, none⟩).confidence,
           (mapBatchRow ⟨"POSITIVE", none, some "t", none, none⟩).review⟩ := rfl
      _ = ⟨Sentiment.Positive, mkRat 1 2, "t"⟩ := by rw [h1, h2, h3]

/-!
## Client-side file validation before a batch upload
-/

/-- A selected browser `File`: name, declared MIME type, byte size. -/
structure JSFile where
  name : String
  type : String
  size : Nat
deriving DecidableEq

/-- JavaScript's `String.prototype.endsWith`. -/
def jsEndsWith (s suffix : String) : Bool := suffix.data.isSuffixOf s.data

/-- The acceptance check of `FileUpload.onDrop` (src/unnamed/part_001,
lines 334–348): a dropped file is accepted iff
`file.type === "text/csv" || file.name.endsWith(".csv")`; no other
property of the file — in particular not its size — is examined. -/
def onDropAccepts (f : JSFile) : Bool :=
  f.type == "text/csv" || jsEndsWith f.name ".csv"

/-- The client-side checks `SentimentAPI.analyzeBatch` performs before
sending the upload request (src/lib/sentiment-api.ts, lines 126–146):
only the presence of a stored token; the file's size and type are logged
but never validated. -/
def analyzeBatchSendsRequest (store : TokenStore) (_file : JSFile) : Bool :=
  (getToken store).isSome

/-- C9 evaluation at the failing input: a 20 MB CSV file (twice the
claimed 10 MB = 10485760-byte ceiling) is accepted by `onDrop`, and with
a token present `analyzeBatch` proceeds to send the request — no
client-side size check exists. -/
theorem fileUpload_no_size_ceiling :
    onDropAccepts ⟨"reviews.csv", "text/csv", 20971520⟩ = true ∧
    analyzeBatchSendsRequest (some "tok") ⟨"reviews.csv", "text/csv", 20971520⟩ = true ∧
    10485760 < 20971520 := by
  exact ⟨rfl, rfl, by decide⟩
